import Mathlib

/-!
Verification development for the multi-model prompt suite
(`core.py`, driven by `suite.py` / `chat.py`).

The Python source is shallowly embedded below:
* Python `dict` values become association lists (`List (String × α)`) so that
  insertion order and partial key sets are represented faithfully;
* Python strings become Lean `String` (reasoning happens on `.data`);
* the async provider calls of `run_all` become oracle functions mapping a
  provider name to an outcome, where an outcome is either a normal return
  value or a raised exception carrying its string rendering
  (`asyncio.gather(..., return_exceptions=True)` semantics);
* wall-clock instants become an explicit `Timestamp` record passed in where
  the code calls `datetime.now()`; the floating-point latency fields, which no
  verified property reads, are omitted from the result payloads.

Definitions are named after the Python functions they embed.
-/

namespace Suite

/-- `MODEL_ORDER = ["opus", "sonnet", "haiku"]` (core.py line 32). -/
def MODEL_ORDER : List String := ["opus", "sonnet", "haiku"]

/-- `FLAG_ORDER = ["opus", "sonnet", "haiku", "ollama"]` (core.py line 35). -/
def FLAG_ORDER : List String := ["opus", "sonnet", "haiku", "ollama"]

/-- Python `d.get(k, dflt)` on a string-keyed dict embedded as an association
list. -/
def dget {α : Type} (d : List (String × α)) (k : String) (dflt : α) : α :=
  match d.find? (fun p => p.1 == k) with
  | some p => p.2
  | none => dflt

/-- Python `d[k] = v` on a dict embedded as an association list: overwrite in
place when the key is present, append otherwise (insertion-order semantics). -/
def dset {α : Type} (d : List (String × α)) (k : String) (v : α) :
    List (String × α) :=
  if (d.find? (fun p => p.1 == k)).isSome then
    d.map (fun p => if p.1 == k then (k, v) else p)
  else d ++ [(k, v)]

/-- Python `k in d`. -/
def dmem {α : Type} (d : List (String × α)) (k : String) : Bool :=
  (d.find? (fun p => p.1 == k)).isSome

/-- `flags_from_str` (core.py lines 38-42): zip the flag string against
`FLAG_ORDER` (the zip stops at the shorter operand, so a short string yields an
incomplete mapping and a long string is truncated to four positions), then for
a 3-character string default the `"ollama"` entry to enabled. -/
def flags_from_str (flags_str : String) : List (String × Bool) :=
  let flags := (FLAG_ORDER.zip flags_str.data).map (fun p => (p.1, p.2 == '+'))
  if flags_str.length = 3 then dset flags "ollama" true else flags

/-- `flags_to_str` (core.py lines 45-46): one `'+'`/`'-'` per canonical
provider, a missing key reading as enabled. -/
def flags_to_str (flags : List (String × Bool)) : String :=
  String.join (FLAG_ORDER.map (fun n => if dget flags n true then "+" else "-"))

/-- `[+\-]` character class of the flag-token regex (core.py line 50). -/
def isFlagChar (c : Char) : Bool := c == '+' || c == '-'

/-- Length of the maximal leading run of `+`/`-` characters. -/
def runLen : List Char → Nat
  | [] => 0
  | c :: cs => if isFlagChar c then runLen cs + 1 else 0

/-- Whether the `(?:\s|$)` group matches at the given suffix: end of input or
a leading whitespace character. -/
def wsOrEnd : List Char → Bool
  | [] => true
  | c :: _ => c.isWhitespace

/-- Attempt of `[+\-]{3,4}(?:\s|$)` at the head of `l` (the position right
after the `(?:^|\s)` anchor): the greedy quantifier tries four flag characters
first, then three; the tail group must see whitespace or end of input.
Returns the token length and whether a trailing whitespace character was
consumed by the match. -/
def matchToken (l : List Char) : Option (Nat × Bool) :=
  let r := runLen l
  if r = 4 then
    if wsOrEnd (l.drop 4) then some (4, !(l.drop 4).isEmpty) else none
  else if r = 3 then
    if wsOrEnd (l.drop 3) then some (3, !(l.drop 3).isEmpty) else none
  else none

/-- Scan for the leftmost `\s`-anchored match of the flag-token regex.
Returns `(before, token, after)` where `before` is the input before the
consumed leading whitespace and `after` is the input after the match. -/
def searchTail : List Char → Option (List Char × List Char × List Char)
  | [] => none
  | c :: cs =>
    if c.isWhitespace then
      match matchToken cs with
      | some (k, ws) => some ([], cs.take k, cs.drop (k + (if ws then 1 else 0)))
      | none =>
        match searchTail cs with
        | some (b, t, a) => some (c :: b, t, a)
        | none => none
    else
      match searchTail cs with
      | some (b, t, a) => some (c :: b, t, a)
      | none => none

/-- `re.search(r'(?:^|\s)([+\-]{3,4})(?:\s|$)', raw)` followed by
`raw[:match.start()] + raw[match.end():]` (core.py lines 50-53): returns the
captured token together with the input with the whole match removed, or `none`
when the pattern does not occur.  The `^` alternative of the anchor is only
tried at position 0. -/
def reSearchFlags (s : List Char) : Option (List Char × List Char) :=
  match matchToken s with
  | some (k, ws) => some (s.take k, s.drop (k + (if ws then 1 else 0)))
  | none =>
    match searchTail s with
    | some (b, t, a) => some (t, b ++ a)
    | none => none

/-- Python `str.strip()` restricted to whitespace. -/
def pyStrip (s : List Char) : List Char :=
  ((s.dropWhile Char.isWhitespace).reverse.dropWhile Char.isWhitespace).reverse

/-- `parse_model_flags` (core.py lines 49-62): extract the first
whitespace-delimited flag token if any, remove it from the prompt and strip;
otherwise keep the prompt and parse `default_flags` (the Python default is
`"++++"`).  The status-line side effects are not part of the data contract
and are not modelled. -/
def parse_model_flags (raw : String) (default_flags : String) :
    String × List (String × Bool) :=
  match reSearchFlags raw.data with
  | some (tok, rest) => (String.mk (pyStrip rest), flags_from_str (String.mk tok))
  | none => (raw, flags_from_str default_flags)

end Suite

namespace Suite

/-- A fragment of the search activity list built by `extract_search_results`
(core.py lines 82-95). -/
inductive SearchRecord where
  | query (q : String)
  | result (title : String) (url : String) (snippet : String)
deriving DecidableEq, Repr

/-- The normal-return payload of `call_model` (core.py lines 130-139), minus
the floating-point latency field, which no verified property reads. -/
structure ModelSuccess where
  model : String
  model_id_requested : String
  input_tokens : Nat
  output_tokens : Nat
  stop_reason : String
  response_text : String
  search_results : List SearchRecord
deriving DecidableEq, Repr

/-- One entry of the `results` dict of `run_all`: either the `call_model`
payload or the error dict `{"error": ..., "model_id_requested": ...}` built at
core.py line 220.  The discriminant mirrors the Python `"error" in r` test. -/
inductive ProviderResult where
  | success (payload : ModelSuccess)
  | failure (error : String) (model_id_requested : String)
deriving DecidableEq, Repr

/-- The normal-return payload of `call_ollama` (core.py lines 193-199), minus
the floating-point latency field. -/
structure OllamaSuccess where
  model : String
  response_text : String
  total_duration_ns : Option Int
  eval_count : Option Int
deriving DecidableEq, Repr

/-- The `comparison` value of `run_all`: either the `call_ollama` payload or
the error dict `{"error": str(e)}` built at core.py line 230. -/
inductive ComparisonResult where
  | success (payload : OllamaSuccess)
  | failure (error : String)
deriving DecidableEq, Repr

/-- The `ollama` sub-dict of the configuration (core.py lines 143-145,
176-179). -/
structure OllamaConfig where
  base_url : String
  model : String
  temperature : Option Int
  top_p : Option Int
  top_k : Option Int
  num_predict : Option Int
  repeat_penalty : Option Int
deriving DecidableEq, Repr

/-- The configuration dict as consumed by `call_model` and `run_all`.
Numeric tuning values are copied verbatim and never computed with, so their
Lean type is immaterial; `Int` stands in for the JSON numbers.  A `none`
models an absent key (Python `dict.get` returning `None`). -/
structure Config where
  models : List (String × String)
  max_tokens : Nat
  temperature : Option Int
  top_p : Option Int
  top_k : Option Int
  system : Option String
  stop_sequences : Option (List String)
  web_search : Option Bool
  web_search_max_uses : Option Int
  ollama : Option OllamaConfig
deriving DecidableEq, Repr

/-- A value of the keyword-argument dict assembled by `call_model`. -/
inductive KwVal where
  | nat (n : Nat)
  | int (i : Int)
  | str (s : String)
  | strs (l : List String)
  | messages (m : List (String × String))
  | tools (t : List (String × String × Int))
deriving DecidableEq, Repr

/-- The initial `kwargs` dict of `call_model` (core.py lines 100-104): model
id, token cap, and the prompt as sole user message. -/
def base_kwargs (config : Config) (model_id : String) (prompt : String) :
    List (String × KwVal) :=
  [("model", KwVal.str model_id),
   ("max_tokens", KwVal.nat config.max_tokens),
   ("messages", KwVal.messages [("user", prompt)])]

/-- `if config.get("temperature") is not None: kwargs["temperature"] = ...`
(core.py lines 105-106). -/
def add_temperature (config : Config) (kwargs : List (String × KwVal)) :
    List (String × KwVal) :=
  match config.temperature with
  | some t => kwargs ++ [("temperature", KwVal.int t)]
  | none => kwargs

/-- `if config.get("top_p") is not None: ...` (core.py lines 107-108). -/
def add_top_p (config : Config) (kwargs : List (String × KwVal)) :
    List (String × KwVal) :=
  match config.top_p with
  | some t => kwargs ++ [("top_p", KwVal.int t)]
  | none => kwargs

/-- `if config.get("top_k") is not None: ...` (core.py lines 109-110). -/
def add_top_k (config : Config) (kwargs : List (String × KwVal)) :
    List (String × KwVal) :=
  match config.top_k with
  | some t => kwargs ++ [("top_k", KwVal.int t)]
  | none => kwargs

/-- `if config.get("system"): ...` (core.py lines 111-112) — Python
truthiness, so an empty string is also skipped. -/
def add_system (config : Config) (kwargs : List (String × KwVal)) :
    List (String × KwVal) :=
  match config.system with
  | some s => if s ≠ "" then kwargs ++ [("system", KwVal.str s)] else kwargs
  | none => kwargs

/-- `if config.get("stop_sequences"): ...` (core.py lines 113-114) — an
empty list is also skipped. -/
def add_stop_sequences (config : Config) (kwargs : List (String × KwVal)) :
    List (String × KwVal) :=
  match config.stop_sequences with
  | some l =>
      if l ≠ [] then kwargs ++ [("stop_sequences", KwVal.strs l)] else kwargs
  | none => kwargs

/-- `if config.get("web_search"): kwargs["tools"] = [...]` (core.py lines
115-120), with the configured max-uses cap defaulting to 3. -/
def add_web_search (config : Config) (kwargs : List (String × KwVal)) :
    List (String × KwVal) :=
  match config.web_search with
  | some true =>
      kwargs ++ [("tools", KwVal.tools
        [("web_search_20250305", "web_search",
          config.web_search_max_uses.getD 3)])]
  | _ => kwargs

/-- The request `kwargs` built by `call_model` (core.py lines 100-120): the
base dict followed by the sequence of conditional assignments, in source
order. -/
def call_model_kwargs (config : Config) (model_id : String) (prompt : String) :
    List (String × KwVal) :=
  add_web_search config (add_stop_sequences config (add_system config
    (add_top_k config (add_top_p config (add_temperature config
      (base_kwargs config model_id prompt))))))

/-- Python `str.upper()` on the ASCII provider names. -/
def pyUpper (s : String) : String := String.mk (s.data.map Char.toUpper)

/-- Python `str.capitalize()`: first character uppercased, the rest
lowercased. -/
def pyCapitalize (s : String) : String :=
  match s.data with
  | [] => ""
  | c :: cs => String.mk (Char.toUpper c :: cs.map Char.toLower)

/-- The f-string appended for one provider inside the loop of `call_ollama`
(core.py lines 154-159): the error rendering when the entry carries an
`"error"` key, the response text otherwise. -/
def section_line (name : String) (r : ProviderResult) : String :=
  match r with
  | ProviderResult.failure e _ =>
      "--- " ++ pyUpper name ++ " ---\n[ERROR: " ++ e ++ "]\n\n"
  | ProviderResult.success pl =>
      "--- " ++ pyUpper name ++ " ---\n" ++ pl.response_text ++ "\n\n"

/-- One iteration of the loop `for name in active: r = responses[name]; ...`
(core.py lines 154-159); `responses[name]` is total on `active`, so the
`none` branch of the lookup is unreachable there. -/
def append_section (responses : List (String × ProviderResult))
    (acc : String) (name : String) : String :=
  match responses.find? (fun p => p.1 == name) with
  | some p => acc ++ section_line name p.2
  | none => acc

/-- The comparison prompt synthesized by `call_ollama` (core.py lines
147-171): the preamble over `active = [n for n in MODEL_ORDER if n in
responses]`, the original prompt, one `--- NAME ---` section per active
provider appended in a loop, then the closing instruction chosen on
`len(active) == 1`. -/
def call_ollama_prompt (prompt : String)
    (responses : List (String × ProviderResult)) : String :=
  let active := MODEL_ORDER.filter (fun n => dmem responses n)
  let names_str := String.intercalate ", " (active.map pyCapitalize)
  let header := "The following prompt was sent to " ++ toString active.length ++
    " AI model(s) (" ++ names_str ++ "):\n\nPROMPT: " ++ prompt ++ "\n\n"
  let body := active.foldl (append_section responses) header
  if active.length = 1 then
    body ++ "Summarize and critique this response. Evaluate its depth, accuracy, completeness, and note any errors or omissions. Be concise but thorough."
  else
    body ++ "Compare and contrast these responses. Identify key differences in depth, accuracy, style, and completeness. Note any unique insights each model provided and any errors or omissions. Be concise but thorough."

/-- Outcome of one awaited coroutine under
`asyncio.gather(..., return_exceptions=True)`: a normal return value, or a
raised exception carrying its `str(...)` rendering. -/
inductive CallOutcome (α : Type) where
  | ok (v : α)
  | exn (msg : String)

/-- The `model_flags is None` default of `run_all` (core.py lines 207-208):
every configured primary model enabled. -/
def resolve_flags (models : List (String × String))
    (model_flags : Option (List (String × Bool))) : List (String × Bool) :=
  match model_flags with
  | none => models.map (fun p => (p.1, true))
  | some f => f

/-- The generation-affecting configuration subset snapshotted into the round
record (core.py lines 237-240). -/
structure ConfigSnapshot where
  max_tokens : Nat
  temperature : Option Int
  top_p : Option Int
  top_k : Option Int
  system : Option String
  stop_sequences : Option (List String)
  web_search : Option Bool
deriving DecidableEq, Repr

def config_snapshot (c : Config) : ConfigSnapshot :=
  ⟨c.max_tokens, c.temperature, c.top_p, c.top_k, c.system, c.stop_sequences,
   c.web_search⟩

/-- The dict returned by `run_all` (core.py lines 233-243).  The timestamp is
an opaque string captured where the code calls `datetime.now(timezone.utc)`. -/
structure RoundRecord where
  timestamp : String
  prompt : String
  model_flags : List (String × Bool)
  config : ConfigSnapshot
  results : List (String × ProviderResult)
  comparison : Option ComparisonResult
deriving DecidableEq, Repr

/-- `run_all` (core.py lines 204-243).  `callModel` is the behaviour of one
`call_model(client, config, model_id, name, prompt)` coroutine, indexed by
provider name and model id; `callOllama` is the behaviour of
`call_ollama(config, prompt, results)`, indexed by the inputs the code passes
it.  `gather(..., return_exceptions=True)` plus the result loop (lines
216-223) make each task contribute exactly one entry: the payload on normal
return, the error dict on an exception (`models[name]` equals the task's own
model id, since `models` is a dict).  The comparison stage (lines 225-231)
runs only under `config.get("ollama") and model_flags.get("ollama", True)`
and converts an exception to the `{"error": str(e)}` dict. -/
def run_all (config : Config) (prompt : String)
    (model_flags : Option (List (String × Bool)))
    (timestamp : String)
    (callModel : String → String → CallOutcome ModelSuccess)
    (callOllama : String → List (String × ProviderResult) →
      CallOutcome OllamaSuccess) : RoundRecord :=
  let flags := resolve_flags config.models model_flags
  let tasks := config.models.filter (fun p => dget flags p.1 true)
  let results := tasks.map (fun p =>
    match callModel p.1 p.2 with
    | CallOutcome.ok v => (p.1, ProviderResult.success v)
    | CallOutcome.exn m => (p.1, ProviderResult.failure m p.2))
  let comparison :=
    if config.ollama.isSome && dget flags "ollama" true then
      some (match callOllama prompt results with
        | CallOutcome.ok v => ComparisonResult.success v
        | CallOutcome.exn e => ComparisonResult.failure e)
    else none
  ⟨timestamp, prompt, flags, config_snapshot config, results, comparison⟩

/-- A wall-clock instant as read by `datetime.now()`; `micros` is the
sub-second component that `strftime("%Y%m%d_%H%M%S")` discards. -/
structure Timestamp where
  year : Nat
  month : Nat
  day : Nat
  hour : Nat
  minute : Nat
  second : Nat
  micros : Nat
deriving DecidableEq, Repr

def digitChar (n : Nat) : Char := Char.ofNat (48 + n)

/-- Two-digit zero-padded decimal rendering (`%m`, `%d`, `%H`, `%M`, `%S`). -/
def pad2 (n : Nat) : List Char := [digitChar (n / 10), digitChar (n % 10)]

/-- Four-digit zero-padded decimal rendering (`%Y` for years below 10000). -/
def pad4 (n : Nat) : List Char :=
  [digitChar (n / 1000), digitChar (n / 100 % 10), digitChar (n / 10 % 10),
   digitChar (n % 10)]

/-- `slug = datetime.now().strftime("%Y%m%d_%H%M%S")` (core.py line 372). -/
def strftime_slug (t : Timestamp) : String :=
  String.mk (pad4 t.year ++ pad2 t.month ++ pad2 t.day ++ ['_'] ++
    pad2 t.hour ++ pad2 t.minute ++ pad2 t.second)

/-- The record artifact filename `f"{slug}.json"` of `save_and_open`
(core.py line 373); both artifacts share one output directory, so filename
equality decides path equality. -/
def json_path (t : Timestamp) : String := strftime_slug t ++ ".json"

/-- The report artifact filename `f"{slug}.html"` (core.py line 374). -/
def html_path (t : Timestamp) : String := strftime_slug t ++ ".html"

/-!
Spec-side descriptions of the comparison prompt (spec §4.3), stated
independently of the loop-and-accumulator shape of the code: a preamble
naming how many and which providers contributed, one labelled section per
contributing provider, and a closing instruction selected on the number of
contributors.  The refinement theorems below compare these to
`call_ollama_prompt`.
-/

/-- The contributing providers with their results, in canonical order
filtered to those present in the results map. -/
def contributing (responses : List (String × ProviderResult)) :
    List (String × ProviderResult) :=
  MODEL_ORDER.filterMap (fun n =>
    (responses.find? (fun p => p.1 == n)).map (fun p => (n, p.2)))

/-- Spec §4.3: a preamble naming how many and which primary providers
produced output. -/
def spec_preamble (names : List String) : String :=
  "The following prompt was sent to " ++ toString names.length ++
    " AI model(s) (" ++ String.intercalate ", " (names.map pyCapitalize) ++
    "):\n\n"

/-- Spec §4.3: a labelled section with the provider's response text on
success, `[ERROR: <description>]` on failure. -/
def spec_section (name : String) (r : ProviderResult) : String :=
  "--- " ++ pyUpper name ++ " ---\n" ++
    (match r with
     | ProviderResult.failure e _ => "[ERROR: " ++ e ++ "]"
     | ProviderResult.success p => p.response_text) ++ "\n\n"

/-- The summary/critique closing instruction (single contributor). -/
def spec_summary_instruction : String :=
  "Summarize and critique this response. Evaluate its depth, accuracy, completeness, and note any errors or omissions. Be concise but thorough."

/-- The compare-and-contrast closing instruction (several contributors). -/
def spec_compare_instruction : String :=
  "Compare and contrast these responses. Identify key differences in depth, accuracy, style, and completeness. Note any unique insights each model provided and any errors or omissions. Be concise but thorough."

/-- Spec §4.3: the closing instruction asks for a summary/critique when
exactly one provider contributed, a compare-and-contrast otherwise. -/
def spec_closing (contributors : Nat) : String :=
  if contributors = 1 then spec_summary_instruction else spec_compare_instruction

end Suite

namespace Suite

theorem str_foldl_app (l : List String) (a : String) :
    l.foldl (· ++ ·) a = a ++ String.join l := by
  induction l generalizing a with
  | nil => simp [String.join, String.append_empty]
  | cons b bs ih =>
    have hj : String.join (b :: bs) = b ++ String.join bs := by
      show bs.foldl (· ++ ·) ("" ++ b) = b ++ String.join bs
      rw [String.empty_append]
      exact ih b
    show bs.foldl (· ++ ·) (a ++ b) = a ++ String.join (b :: bs)
    rw [ih (a ++ b), hj, String.append_assoc]

theorem str_join_cons (b : String) (bs : List String) :
    String.join (b :: bs) = b ++ String.join bs := by
  show bs.foldl (· ++ ·) ("" ++ b) = b ++ String.join bs
  rw [String.empty_append]
  exact str_foldl_app bs b

/-- The loop body appends exactly the section the spec describes. -/
theorem section_line_eq (name : String) (r : ProviderResult) :
    section_line name r = spec_section name r := by
  cases r with
  | failure e mid =>
    show "--- " ++ pyUpper name ++ " ---\n[ERROR: " ++ e ++ "]\n\n" =
      "--- " ++ pyUpper name ++ " ---\n" ++ ("[ERROR: " ++ e ++ "]") ++ "\n\n"
    have h1 : (" ---\n[ERROR: " : String) = " ---\n" ++ "[ERROR: " := by decide
    have h2 : ("]\n\n" : String) = "]" ++ "\n\n" := by decide
    rw [h1, h2]
    simp only [String.append_assoc]
  | success p =>
    simp only [section_line, spec_section, String.append_assoc]

/-- The section loop of `call_ollama` accumulates, onto its initial value, the
concatenation of the spec sections of the contributing providers. -/
theorem sections_fold (responses : List (String × ProviderResult))
    (l : List String) (a : String) :
    (l.filter (fun n => dmem responses n)).foldl (append_section responses) a
      = a ++ String.join ((l.filterMap (fun n =>
          (responses.find? (fun p => p.1 == n)).map (fun p => (n, p.2)))).map
          (fun q => spec_section q.1 q.2)) := by
  induction l generalizing a with
  | nil => simp [String.join, String.append_empty]
  | cons n ns ih =>
    rcases h : responses.find? (fun p => p.1 == n) with _ | p
    · have hd : dmem responses n = false := by simp [dmem, h]
      simp only [List.filter_cons, hd, Bool.false_eq_true, if_false,
        List.filterMap_cons, h]
      exact ih a
    · have hd : dmem responses n = true := by simp [dmem, h]
      simp only [List.filter_cons, hd, if_true, List.filterMap_cons, h,
        Option.map_some', List.foldl_cons, List.map_cons]
      have hstep : append_section responses a n = a ++ section_line n p.2 := by
        simp [append_section, h]
      rw [hstep, ih, str_join_cons, section_line_eq, String.append_assoc]

/-- The contributing providers are the canonical order filtered to those
present in the results map. -/
theorem contributing_names (responses : List (String × ProviderResult)) :
    (contributing responses).map Prod.fst
      = MODEL_ORDER.filter (fun n => dmem responses n) := by
  suffices h : ∀ l : List String,
      ((l.filterMap (fun n =>
        (responses.find? (fun p => p.1 == n)).map (fun p => (n, p.2)))).map
          Prod.fst)
        = l.filter (fun n => dmem responses n) from h MODEL_ORDER
  intro l
  induction l with
  | nil => rfl
  | cons n ns ih =>
    rcases h : responses.find? (fun p => p.1 == n) with _ | p <;>
      simp [List.filterMap_cons, h, List.filter_cons, dmem, ih]

/-- C4 counterexample: the string `"ab"` has invalid length and invalid
characters, yet `flags_from_str` does not fail — it returns a two-entry
mapping, a nonempty result that covers only two of the four canonical
providers. -/
theorem c4_counterexample :
    flags_from_str "ab" = [("opus", false), ("sonnet", false)]
    ∧ flags_from_str "ab" ≠ []
    ∧ (flags_from_str "ab").map Prod.fst ≠ FLAG_ORDER := by decide

theorem runLen_le_length (l : List Char) : runLen l ≤ l.length := by
  induction l with
  | nil => simp [runLen]
  | cons c cs ih =>
    simp only [runLen, List.length_cons]
    split <;> omega

theorem take_runLen_all (l : List Char) (k : Nat) (h : k ≤ runLen l) :
    (l.take k).all isFlagChar := by
  induction l generalizing k with
  | nil => simp [List.take]
  | cons c cs ih =>
    cases k with
    | zero => simp [List.take]
    | succ k =>
      simp only [runLen] at h
      by_cases hc : isFlagChar c
      · rw [if_pos hc] at h
        simp only [List.take, List.all_cons, hc, Bool.true_and]
        exact ih k (by omega)
      · rw [if_neg hc] at h
        omega

theorem matchToken_shape (l : List Char) (k : Nat) (ws : Bool)
    (h : matchToken l = some (k, ws)) :
    (k = 3 ∨ k = 4) ∧ (l.take k).length = k ∧ (l.take k).all isFlagChar := by
  have hlen := runLen_le_length l
  simp only [matchToken] at h
  split_ifs at h with h4 hws h3 hws' <;> simp at h
  · obtain ⟨hk, _⟩ := h
    subst hk
    refine ⟨Or.inr rfl, ?_, take_runLen_all l 4 (by omega)⟩
    simp only [List.length_take]
    omega
  · obtain ⟨hk, _⟩ := h
    subst hk
    refine ⟨Or.inl rfl, ?_, take_runLen_all l 3 (by omega)⟩
    simp only [List.length_take]
    omega

theorem token_length_valid (l : List Char) (k : Nat)
    (hk : k = 3 ∨ k = 4) (hl : (l.take k).length = k)
    (hall : (l.take k).all isFlagChar) :
    ((l.take k).length = 3 ∨ (l.take k).length = 4) ∧
      (l.take k).all isFlagChar := by
  rw [hl]
  exact ⟨hk, hall⟩

theorem searchTail_token_valid (s : List Char) (b t a : List Char)
    (h : searchTail s = some (b, t, a)) :
    (t.length = 3 ∨ t.length = 4) ∧ t.all isFlagChar := by
  induction s generalizing b t a with
  | nil => exact absurd h (by simp [searchTail])
  | cons c cs ih =>
    unfold searchTail at h
    by_cases hc : c.isWhitespace
    · rw [if_pos hc] at h
      rcases hm : matchToken cs with _ | ⟨k, ws⟩
      · simp only [hm] at h
        rcases hs : searchTail cs with _ | ⟨⟨b', t', a'⟩⟩
        · simp only [hs] at h
          exact absurd h (by simp)
        · simp only [hs, Option.some.injEq, Prod.mk.injEq] at h
          obtain ⟨_, ht, ha⟩ := h
          subst ht
          subst ha
          exact ih b' t' a' hs
      · simp only [hm, Option.some.injEq, Prod.mk.injEq] at h
        obtain ⟨_, ht, _⟩ := h
        obtain ⟨hk, hl, hall⟩ := matchToken_shape cs k ws hm
        subst ht
        exact token_length_valid cs k hk hl hall
    · rw [if_neg hc] at h
      rcases hs : searchTail cs with _ | ⟨⟨b', t', a'⟩⟩
      · simp only [hs] at h
        exact absurd h (by simp)
      · simp only [hs, Option.some.injEq, Prod.mk.injEq] at h
        obtain ⟨_, ht, ha⟩ := h
        subst ht
        subst ha
        exact ih b' t' a' hs

theorem reSearchFlags_token_valid (s t rest : List Char)
    (h : reSearchFlags s = some (t, rest)) :
    (t.length = 3 ∨ t.length = 4) ∧ t.all isFlagChar := by
  unfold reSearchFlags at h
  rcases hm : matchToken s with _ | ⟨k, ws⟩
  · simp only [hm] at h
    rcases hs : searchTail s with _ | ⟨⟨b', t', a'⟩⟩
    · simp only [hs] at h
      exact absurd h (by simp)
    · simp only [hs, Option.some.injEq, Prod.mk.injEq] at h
      obtain ⟨ht, _⟩ := h
      subst ht
      exact searchTail_token_valid s b' t' a' hs
  · simp only [hm, Option.some.injEq, Prod.mk.injEq] at h
    obtain ⟨ht, _⟩ := h
    obtain ⟨hk, hl, hall⟩ := matchToken_shape s k ws hm
    subst ht
    exact token_length_valid s k hk hl hall

/-- C4 (amended): neither `flags_from_str` nor `parse_model_flags` has a
failure mode.  `flags_from_str` performs no validation: for any input it
returns one entry per position up to the four canonical providers (a
character other than `'+'` reads as disabled), appending the enabled
comparison default exactly for 3-character inputs — so malformed strings
yield a truncated or over-full mapping rather than an `InvalidFlagFormat`
failure.  Malformed tokens are instead screened out upstream: any token that
`parse_model_flags`'s regex search extracts is a 3- or 4-character run of
`'+'`/`'-'`. -/
theorem c4_parse_has_no_failure_mode (s raw : String) :
    ((flags_from_str s).map Prod.fst
        = FLAG_ORDER.take (min s.length 4)
            ++ (if s.length = 3 then ["ollama"] else []))
    ∧ (∀ tok rest, reSearchFlags raw.data = some (tok, rest) →
        (tok.length = 3 ∨ tok.length = 4) ∧ tok.all isFlagChar) := by
  constructor
  · obtain ⟨data⟩ := s
    rcases data with _ | ⟨a, _ | ⟨b, _ | ⟨c, _ | ⟨d, rest⟩⟩⟩⟩ <;>
      simp [flags_from_str, FLAG_ORDER, dset, String.length] <;>
      omega
  · intro tok rest h
    exact reSearchFlags_token_valid raw.data tok rest h

/-- Witness for C4 (amended) at `s = "++-"`, `raw = "a +-+ b"`, where the
regex extracts the token `"+-+"`. -/
theorem c4_witness :
    ((flags_from_str "++-").map Prod.fst
        = FLAG_ORDER.take (min ("++-" : String).length 4)
            ++ (if ("++-" : String).length = 3 then ["ollama"] else []))
    ∧ (("+-+".data.length = 3 ∨ "+-+".data.length = 4)
        ∧ "+-+".data.all isFlagChar) := by
  obtain ⟨h1, h2⟩ := c4_parse_has_no_failure_mode "++-" "a +-+ b"
  exact ⟨h1, h2 "+-+".data "ab".data (by decide)⟩

/-- C5: parsing a valid 3- or 4-character flag string and formatting the
result reproduces the input, a 3-character input gaining a trailing `'+'`
for the comparison provider. -/
theorem c5_parse_format_roundtrip (s : String)
    (hlen : s.length = 3 ∨ s.length = 4)
    (hv : ∀ c ∈ s.data, c = '+' ∨ c = '-') :
    flags_to_str (flags_from_str s) = if s.length = 3 then s ++ "+" else s := by
  obtain ⟨data⟩ := s
  rcases hlen with h3 | h4
  · have h3' : data.length = 3 := by simpa [String.length] using h3
    obtain ⟨a, b, c, rfl⟩ := List.length_eq_three.mp h3'
    rcases hv a (by simp) with rfl | rfl <;>
      rcases hv b (by simp) with rfl | rfl <;>
      rcases hv c (by simp) with rfl | rfl <;> decide
  · have h4' : data.length = 4 := by simpa [String.length] using h4
    rcases data with _ | ⟨a, tl⟩
    · simp at h4'
    · have htl : tl.length = 3 := by simpa using h4'
      obtain ⟨b, c, d, rfl⟩ := List.length_eq_three.mp htl
      rcases hv a (by simp) with rfl | rfl <;>
        rcases hv b (by simp) with rfl | rfl <;>
        rcases hv c (by simp) with rfl | rfl <;>
        rcases hv d (by simp) with rfl | rfl <;> decide

/-- Witness for C5 at `"+-+"` (3 characters) showing the defaulted fourth
position. -/
theorem c5_witness :
    flags_to_str (flags_from_str "+-+")
      = if ("+-+" : String).length = 3 then "+-+" ++ "+" else "+-+" := by
  exact c5_parse_format_roundtrip "+-+" (Or.inl (by decide)) (by decide)

theorem sections_fold_contributing
    (responses : List (String × ProviderResult)) (a : String) :
    (MODEL_ORDER.filter (fun n => dmem responses n)).foldl
        (append_section responses) a
      = a ++ String.join ((contributing responses).map
          (fun q => spec_section q.1 q.2)) :=
  sections_fold responses MODEL_ORDER a

theorem header_split (t ns prompt : String) :
    "The following prompt was sent to " ++ t ++ " AI model(s) (" ++ ns ++
        "):\n\nPROMPT: " ++ prompt ++ "\n\n"
      = ("The following prompt was sent to " ++ t ++ " AI model(s) (" ++ ns ++
          "):\n\n") ++ ("PROMPT: " ++ prompt ++ "\n\n") := by
  have h : ("):\n\nPROMPT: " : String) = "):\n\n" ++ "PROMPT: " := by decide
  rw [h]
  simp only [String.append_assoc]

/-- The comparison prompt decomposes into preamble, original prompt, one
section per contributing provider, and the contributor-count-selected closing
instruction. -/
theorem call_ollama_prompt_decomp (prompt : String)
    (responses : List (String × ProviderResult)) :
    call_ollama_prompt prompt responses =
      spec_preamble ((contributing responses).map Prod.fst) ++
        ("PROMPT: " ++ prompt ++ "\n\n") ++
        String.join ((contributing responses).map
          (fun q => spec_section q.1 q.2)) ++
        spec_closing (contributing responses).length := by
  have hnames := contributing_names responses
  have hlen : (contributing responses).length
      = (MODEL_ORDER.filter (fun n => dmem responses n)).length := by
    rw [← hnames, List.length_map]
  simp only [call_ollama_prompt]
  rw [sections_fold_contributing, header_split]
  simp only [spec_preamble]
  rw [hnames, hlen]
  by_cases h1 : (MODEL_ORDER.filter (fun n => dmem responses n)).length = 1
  · rw [if_pos h1, h1]
    simp [spec_closing, spec_summary_instruction]
  · rw [if_neg h1]
    simp [spec_closing, h1, spec_compare_instruction]

/-- C6: for a non-empty primary-results map the synthesized comparison prompt
is exactly: a preamble naming how many and which providers produced output
(canonical order filtered to those present), the original prompt, one
labelled section per contributing provider (response text on success,
`[ERROR: description]` on failure), and a closing instruction that is the
summary/critique request for exactly one contributor and the
compare-and-contrast request otherwise. -/
theorem c6_comparison_prompt_structure (prompt : String)
    (responses : List (String × ProviderResult)) (hne : responses ≠ []) :
    (call_ollama_prompt prompt responses =
      spec_preamble ((contributing responses).map Prod.fst) ++
        ("PROMPT: " ++ prompt ++ "\n\n") ++
        String.join ((contributing responses).map
          (fun q => spec_section q.1 q.2)) ++
        spec_closing (contributing responses).length)
    ∧ (contributing responses).map Prod.fst
        = MODEL_ORDER.filter (fun n => dmem responses n)
    ∧ (∀ n e mid, spec_section n (ProviderResult.failure e mid)
        = "--- " ++ pyUpper n ++ " ---\n" ++ ("[ERROR: " ++ e ++ "]") ++ "\n\n")
    ∧ (∀ n p, spec_section n (ProviderResult.success p)
        = "--- " ++ pyUpper n ++ " ---\n" ++ p.response_text ++ "\n\n")
    ∧ spec_closing 1 = spec_summary_instruction
    ∧ ∀ k, k ≠ 1 → spec_closing k = spec_compare_instruction := by
  refine ⟨call_ollama_prompt_decomp prompt responses,
    contributing_names responses, fun n e mid => rfl, fun n p => rfl,
    by simp [spec_closing], fun k hk => by simp [spec_closing, hk]⟩

/-- Witness for C6 at a one-failure results map. -/
theorem c6_witness :
    (call_ollama_prompt "Q" [("opus", ProviderResult.failure "boom" "mid")] =
      spec_preamble ((contributing
          [("opus", ProviderResult.failure "boom" "mid")]).map Prod.fst) ++
        ("PROMPT: " ++ "Q" ++ "\n\n") ++
        String.join ((contributing
          [("opus", ProviderResult.failure "boom" "mid")]).map
          (fun q => spec_section q.1 q.2)) ++
        spec_closing (contributing
          [("opus", ProviderResult.failure "boom" "mid")]).length)
    ∧ (contributing [("opus", ProviderResult.failure "boom" "mid")]).map
          Prod.fst
        = MODEL_ORDER.filter (fun n =>
            dmem [("opus", ProviderResult.failure "boom" "mid")] n)
    ∧ (∀ n e mid, spec_section n (ProviderResult.failure e mid)
        = "--- " ++ pyUpper n ++ " ---\n" ++ ("[ERROR: " ++ e ++ "]") ++ "\n\n")
    ∧ (∀ n p, spec_section n (ProviderResult.success p)
        = "--- " ++ pyUpper n ++ " ---\n" ++ p.response_text ++ "\n\n")
    ∧ spec_closing 1 = spec_summary_instruction
    ∧ ∀ k, k ≠ 1 → spec_closing k = spec_compare_instruction :=
  c6_comparison_prompt_structure "Q"
    [("opus", ProviderResult.failure "boom" "mid")] (by simp)

/-- C10: on an empty primary-results map the synthesized prompt has a
preamble reporting 0 models with an empty name list, no provider sections,
and the multi-provider compare-and-contrast closing; and the comparison
stage still proceeds whenever the comparison provider is enabled and
configured, regardless of the results map. -/
theorem c10_empty_results_comparison (prompt : String) (config : Config)
    (flags : List (String × Bool)) (ts : String)
    (cm : String → String → CallOutcome ModelSuccess)
    (co : String → List (String × ProviderResult) → CallOutcome OllamaSuccess)
    (hol : config.ollama.isSome = true)
    (hfl : dget flags "ollama" true = true) :
    (call_ollama_prompt prompt [] =
      "The following prompt was sent to 0 AI model(s) ():\n\nPROMPT: " ++
        prompt ++
        "\n\nCompare and contrast these responses. Identify key differences in depth, accuracy, style, and completeness. Note any unique insights each model provided and any errors or omissions. Be concise but thorough.")
    ∧ ((run_all config prompt (some flags) ts cm co).comparison).isSome
        = true := by
  constructor
  · rw [call_ollama_prompt_decomp]
    have hc : contributing ([] : List (String × ProviderResult)) = [] := rfl
    rw [hc]
    simp only [List.map_nil, List.length_nil]
    have h1 : spec_preamble [] =
        "The following prompt was sent to 0 AI model(s) ():\n\n" := by decide
    have h2 : String.join ([] : List String) = "" := rfl
    have h3 : spec_closing 0 = spec_compare_instruction := by
      simp [spec_closing]
    rw [h1, h2, h3, String.append_empty]
    have h4 : ("The following prompt was sent to 0 AI model(s) ():\n\nPROMPT: "
        : String)
        = "The following prompt was sent to 0 AI model(s) ():\n\n" ++
          "PROMPT: " := by decide
    have h5 : ("\n\nCompare and contrast these responses. Identify key differences in depth, accuracy, style, and completeness. Note any unique insights each model provided and any errors or omissions. Be concise but thorough."
        : String)
        = "\n\n" ++ "Compare and contrast these responses. Identify key differences in depth, accuracy, style, and completeness. Note any unique insights each model provided and any errors or omissions. Be concise but thorough." := by
      rfl
    rw [h4, h5]
    simp only [spec_compare_instruction, String.append_assoc]
  · simp only [run_all, resolve_flags]
    rw [hol, hfl]
    simp

/-- Witness for C10 at a configured comparison provider and all-enabled
flags. -/
theorem c10_witness :
    (call_ollama_prompt "Q" [] =
      "The following prompt was sent to 0 AI model(s) ():\n\nPROMPT: " ++
        "Q" ++
        "\n\nCompare and contrast these responses. Identify key differences in depth, accuracy, style, and completeness. Note any unique insights each model provided and any errors or omissions. Be concise but thorough.")
    ∧ ((run_all
        ⟨[("opus", "model-o")], 100, none, none, none, none, none, none, none,
          some ⟨"http://localhost", "llama", none, none, none, none, none⟩⟩
        "Q" (some [("opus", false)]) "t"
        (fun _ _ => CallOutcome.exn "down")
        (fun _ _ => CallOutcome.exn "down")).comparison).isSome = true :=
  c10_empty_results_comparison "Q"
    ⟨[("opus", "model-o")], 100, none, none, none, none, none, none, none,
      some ⟨"http://localhost", "llama", none, none, none, none, none⟩⟩
    [("opus", false)] "t"
    (fun _ _ => CallOutcome.exn "down")
    (fun _ _ => CallOutcome.exn "down")
    (by decide) (by decide)

theorem run_all_results_eq (config : Config) (prompt : String)
    (mf : Option (List (String × Bool))) (ts : String)
    (cm : String → String → CallOutcome ModelSuccess)
    (co : String → List (String × ProviderResult) →
      CallOutcome OllamaSuccess) :
    (run_all config prompt mf ts cm co).results
      = (config.models.filter
          (fun p => dget (resolve_flags config.models mf) p.1 true)).map
          (fun p => match cm p.1 p.2 with
            | CallOutcome.ok v => (p.1, ProviderResult.success v)
            | CallOutcome.exn m => (p.1, ProviderResult.failure m p.2)) := rfl

theorem run_all_results_keys (config : Config) (prompt : String)
    (mf : Option (List (String × Bool))) (ts : String)
    (cm : String → String → CallOutcome ModelSuccess)
    (co : String → List (String × ProviderResult) →
      CallOutcome OllamaSuccess) :
    (run_all config prompt mf ts cm co).results.map Prod.fst
      = (config.models.filter
          (fun p => dget (resolve_flags config.models mf) p.1 true)).map
          Prod.fst := by
  rw [run_all_results_eq, List.map_map]
  apply List.map_congr_left
  intro p hp
  simp only [Function.comp_apply]
  cases cm p.1 p.2 <;> rfl

/-- C2: the round record's results mapping has an entry exactly for the
primary providers that are configured and enabled for the round, and none
for disabled providers. -/
theorem c2_results_cover_enabled_providers (config : Config) (prompt : String)
    (mf : Option (List (String × Bool))) (ts : String)
    (cm : String → String → CallOutcome ModelSuccess)
    (co : String → List (String × ProviderResult) →
      CallOutcome OllamaSuccess) :
    ∀ name : String,
      name ∈ (run_all config prompt mf ts cm co).results.map Prod.fst ↔
        (name ∈ config.models.map Prod.fst ∧
          dget (resolve_flags config.models mf) name true = true) := by
  intro name
  rw [run_all_results_keys]
  constructor
  · intro h
    obtain ⟨p, hp, hname⟩ := List.mem_map.mp h
    obtain ⟨hpm, hpf⟩ := List.mem_filter.mp hp
    subst hname
    exact ⟨List.mem_map.mpr ⟨p, hpm, rfl⟩, by simpa using hpf⟩
  · rintro ⟨hm, hf⟩
    obtain ⟨p, hp, rfl⟩ := List.mem_map.mp hm
    exact List.mem_map.mpr ⟨p, List.mem_filter.mpr ⟨hp, by simpa using hf⟩, rfl⟩

/-- C1: each enabled primary provider yields exactly one entry in the results
mapping; a normal return is recorded as the success payload and a raised
fault is caught and recorded as the failure entry carrying the fault's text
(the `gather(..., return_exceptions=True)` boundary), so no fault escapes
`run_all`. -/
theorem c1_one_result_per_enabled_provider (config : Config) (prompt : String)
    (mf : Option (List (String × Bool))) (ts : String)
    (cm : String → String → CallOutcome ModelSuccess)
    (co : String → List (String × ProviderResult) →
      CallOutcome OllamaSuccess)
    (hnd : (config.models.map Prod.fst).Nodup) :
    ∀ name model_id : String, (name, model_id) ∈ config.models →
      dget (resolve_flags config.models mf) name true = true →
      (((run_all config prompt mf ts cm co).results.filter
          (fun q => q.1 == name)).length = 1
       ∧ (∀ v, cm name model_id = CallOutcome.ok v →
            (name, ProviderResult.success v)
              ∈ (run_all config prompt mf ts cm co).results)
       ∧ (∀ m, cm name model_id = CallOutcome.exn m →
            (name, ProviderResult.failure m model_id)
              ∈ (run_all config prompt mf ts cm co).results)) := by
  intro name model_id hm hf
  have htask : (name, model_id) ∈ config.models.filter
      (fun p => dget (resolve_flags config.models mf) p.1 true) :=
    List.mem_filter.mpr ⟨hm, by simpa using hf⟩
  refine ⟨?_, ?_, ?_⟩
  · rw [run_all_results_eq, ← List.countP_eq_length_filter, List.countP_map]
    have e1 : (config.models.filter
        (fun p => dget (resolve_flags config.models mf) p.1 true)).countP
          ((fun q => q.1 == name) ∘ (fun p => match cm p.1 p.2 with
            | CallOutcome.ok v => (p.1, ProviderResult.success v)
            | CallOutcome.exn m => (p.1, ProviderResult.failure m p.2)))
        = (config.models.filter
            (fun p => dget (resolve_flags config.models mf) p.1 true)).countP
          (fun p => p.1 == name) := by
      apply List.countP_congr
      intro p hp
      rcases h : cm p.1 p.2 with v | m <;> simp [h]
    rw [e1, List.countP_filter]
    have e2 : config.models.countP
        (fun p => p.1 == name &&
          dget (resolve_flags config.models mf) p.1 true)
        = config.models.countP (fun p => p.1 == name) := by
      apply List.countP_congr
      intro p hp
      cases hx : (p.1 == name) with
      | false => simp
      | true =>
        have : p.1 = name := by simpa using hx
        simp [this, hf]
    rw [e2]
    have e3 : config.models.countP (fun p => p.1 == name)
        = (config.models.map Prod.fst).count name := by
      rw [List.count, List.countP_map]
      rfl
    rw [e3]
    have hle := List.nodup_iff_count_le_one.mp hnd name
    have hpos : 0 < (config.models.map Prod.fst).count name :=
      List.count_pos_iff.mpr (List.mem_map.mpr ⟨(name, model_id), hm, rfl⟩)
    omega
  · intro v hv
    rw [run_all_results_eq]
    refine List.mem_map.mpr ⟨(name, model_id), htask, ?_⟩
    show (match cm name model_id with
      | CallOutcome.ok v => (name, ProviderResult.success v)
      | CallOutcome.exn m => (name, ProviderResult.failure m model_id))
        = (name, ProviderResult.success v)
    rw [hv]
  · intro m hm'
    rw [run_all_results_eq]
    refine List.mem_map.mpr ⟨(name, model_id), htask, ?_⟩
    show (match cm name model_id with
      | CallOutcome.ok v => (name, ProviderResult.success v)
      | CallOutcome.exn m => (name, ProviderResult.failure m model_id))
        = (name, ProviderResult.failure m model_id)
    rw [hm']

/-- Witness for C1: two configured providers, the enabled one raising a
fault that is recorded as a failure entry. -/
theorem c1_witness :
    (((run_all
        ⟨[("opus", "model-o"), ("sonnet", "model-s")], 100, none, none, none,
          none, none, none, none, none⟩
        "P" none "t" (fun _ _ => CallOutcome.exn "boom")
        (fun _ _ => CallOutcome.exn "boom")).results.filter
          (fun q => q.1 == "opus")).length = 1
     ∧ (∀ v, (fun (_ _ : String) => CallOutcome.exn (α := ModelSuccess) "boom")
            "opus" "model-o" = CallOutcome.ok v →
          ("opus", ProviderResult.success v)
            ∈ (run_all
                ⟨[("opus", "model-o"), ("sonnet", "model-s")], 100, none, none,
                  none, none, none, none, none, none⟩
                "P" none "t" (fun _ _ => CallOutcome.exn "boom")
                (fun _ _ => CallOutcome.exn "boom")).results)
     ∧ (∀ m, (fun (_ _ : String) => CallOutcome.exn (α := ModelSuccess) "boom")
            "opus" "model-o" = CallOutcome.exn m →
          ("opus", ProviderResult.failure m "model-o")
            ∈ (run_all
                ⟨[("opus", "model-o"), ("sonnet", "model-s")], 100, none, none,
                  none, none, none, none, none, none⟩
                "P" none "t" (fun _ _ => CallOutcome.exn "boom")
                (fun _ _ => CallOutcome.exn "boom")).results)) :=
  c1_one_result_per_enabled_provider
    ⟨[("opus", "model-o"), ("sonnet", "model-s")], 100, none, none, none,
      none, none, none, none, none⟩
    "P" none "t" (fun _ _ => CallOutcome.exn "boom")
    (fun _ _ => CallOutcome.exn "boom")
    (by decide) "opus" "model-o" (by decide) (by decide)

/-- C3: the comparison result is absent exactly when the comparison provider
is unconfigured or disabled (absence is a distinct state from failure), and
when configured and enabled the comparison behaviour is invoked on the full
primary-results map, a normal return stored as success and a raised fault
converted to the failure variant. -/
theorem c3_comparison_gate (config : Config) (prompt : String)
    (mf : Option (List (String × Bool))) (ts : String)
    (cm : String → String → CallOutcome ModelSuccess)
    (co : String → List (String × ProviderResult) →
      CallOutcome OllamaSuccess) :
    ((run_all config prompt mf ts cm co).comparison = none ↔
      ¬(config.ollama.isSome = true ∧
        dget (resolve_flags config.models mf) "ollama" true = true))
    ∧ (config.ollama.isSome = true →
        dget (resolve_flags config.models mf) "ollama" true = true →
        (run_all config prompt mf ts cm co).comparison =
          some (match co prompt (run_all config prompt mf ts cm co).results with
            | CallOutcome.ok v => ComparisonResult.success v
            | CallOutcome.exn e => ComparisonResult.failure e)) := by
  have hcomp : (run_all config prompt mf ts cm co).comparison
      = if config.ollama.isSome &&
            dget (resolve_flags config.models mf) "ollama" true then
          some (match co prompt (run_all config prompt mf ts cm co).results with
            | CallOutcome.ok v => ComparisonResult.success v
            | CallOutcome.exn e => ComparisonResult.failure e)
        else none := rfl
  rw [hcomp]
  by_cases h : (config.ollama.isSome &&
      dget (resolve_flags config.models mf) "ollama" true) = true
  · rw [if_pos h]
    simp only [Bool.and_eq_true] at h
    exact ⟨⟨fun hx => absurd hx (by simp), fun hx => absurd h hx⟩,
      fun _ _ => rfl⟩
  · rw [if_neg h]
    simp only [Bool.and_eq_true] at h
    exact ⟨⟨fun _ => h, fun _ => rfl⟩, fun h1 h2 => absurd ⟨h1, h2⟩ h⟩

/-- Witness for C3: comparison configured and enabled, the raised fault
converted to a failure comparison result. -/
theorem c3_witness :
    (run_all
      ⟨[("opus", "model-o")], 100, none, none, none, none, none, none, none,
        some ⟨"http://localhost", "llama", none, none, none, none, none⟩⟩
      "P" none "t" (fun _ _ => CallOutcome.ok
        ⟨"m", "model-o", 1, 2, "end_turn", "ok", []⟩)
      (fun _ _ => CallOutcome.exn "unreachable")).comparison =
      some (match (fun (_ : String)
          (_ : List (String × ProviderResult)) =>
            CallOutcome.exn (α := OllamaSuccess) "unreachable") "P"
          (run_all
            ⟨[("opus", "model-o")], 100, none, none, none, none, none, none,
              none,
              some ⟨"http://localhost", "llama", none, none, none, none,
                none⟩⟩
            "P" none "t" (fun _ _ => CallOutcome.ok
              ⟨"m", "model-o", 1, 2, "end_turn", "ok", []⟩)
            (fun _ _ => CallOutcome.exn "unreachable")).results with
        | CallOutcome.ok v => ComparisonResult.success v
        | CallOutcome.exn e => ComparisonResult.failure e) :=
  (c3_comparison_gate
    ⟨[("opus", "model-o")], 100, none, none, none, none, none, none, none,
      some ⟨"http://localhost", "llama", none, none, none, none, none⟩⟩
    "P" none "t" (fun _ _ => CallOutcome.ok
      ⟨"m", "model-o", 1, 2, "end_turn", "ok", []⟩)
    (fun _ _ => CallOutcome.exn "unreachable")).2 (by decide) (by decide)

theorem dmem_append {α : Type} (d1 d2 : List (String × α)) (k : String) :
    dmem (d1 ++ d2) k = (dmem d1 k || dmem d2 k) := by
  simp only [dmem]
  induction d1 with
  | nil => simp
  | cons p d ih =>
    cases hp : p.1 == k <;> simp [List.find?_cons, hp, ih]

theorem dmem_single {α : Type} (a : String) (v : α) (k : String) :
    dmem [(a, v)] k = (a == k) := by
  cases h : a == k <;> simp [dmem, List.find?_cons, h]

theorem dmem_add_temperature_self (c : Config) (d : List (String × KwVal)) :
    dmem (add_temperature c d) "temperature"
      = (dmem d "temperature" || c.temperature.isSome) := by
  rcases hc : c.temperature with _ | t <;>
    simp [add_temperature, hc, dmem_append, dmem_single]

theorem dmem_add_temperature_ne (c : Config) (d : List (String × KwVal))
    (k : String) (h : ("temperature" == k) = false) :
    dmem (add_temperature c d) k = dmem d k := by
  rcases hc : c.temperature with _ | t <;>
    simp [add_temperature, hc, dmem_append, dmem_single, h]

theorem dmem_add_top_p_self (c : Config) (d : List (String × KwVal)) :
    dmem (add_top_p c d) "top_p" = (dmem d "top_p" || c.top_p.isSome) := by
  rcases hc : c.top_p with _ | t <;>
    simp [add_top_p, hc, dmem_append, dmem_single]

theorem dmem_add_top_p_ne (c : Config) (d : List (String × KwVal))
    (k : String) (h : ("top_p" == k) = false) :
    dmem (add_top_p c d) k = dmem d k := by
  rcases hc : c.top_p with _ | t <;>
    simp [add_top_p, hc, dmem_append, dmem_single, h]

theorem dmem_add_top_k_self (c : Config) (d : List (String × KwVal)) :
    dmem (add_top_k c d) "top_k" = (dmem d "top_k" || c.top_k.isSome) := by
  rcases hc : c.top_k with _ | t <;>
    simp [add_top_k, hc, dmem_append, dmem_single]

theorem dmem_add_top_k_ne (c : Config) (d : List (String × KwVal))
    (k : String) (h : ("top_k" == k) = false) :
    dmem (add_top_k c d) k = dmem d k := by
  rcases hc : c.top_k with _ | t <;>
    simp [add_top_k, hc, dmem_append, dmem_single, h]

theorem dmem_add_system_self (c : Config) (d : List (String × KwVal)) :
    (dmem (add_system c d) "system" = true ↔
      (dmem d "system" = true ∨ ∃ s, c.system = some s ∧ s ≠ "")) := by
  rcases hc : c.system with _ | s
  · simp [add_system, hc]
  · by_cases hs : s = "" <;>
      simp [add_system, hc, hs, dmem_append, dmem_single]

theorem dmem_add_system_ne (c : Config) (d : List (String × KwVal))
    (k : String) (h : ("system" == k) = false) :
    dmem (add_system c d) k = dmem d k := by
  rcases hc : c.system with _ | s
  · simp [add_system, hc]
  · by_cases hs : s = "" <;>
      simp [add_system, hc, hs, dmem_append, dmem_single, h]

theorem dmem_add_stop_sequences_self (c : Config)
    (d : List (String × KwVal)) :
    (dmem (add_stop_sequences c d) "stop_sequences" = true ↔
      (dmem d "stop_sequences" = true ∨
        ∃ l, c.stop_sequences = some l ∧ l ≠ [])) := by
  rcases hc : c.stop_sequences with _ | l
  · simp [add_stop_sequences, hc]
  · by_cases hl : l = [] <;>
      simp [add_stop_sequences, hc, hl, dmem_append, dmem_single]

theorem dmem_add_stop_sequences_ne (c : Config) (d : List (String × KwVal))
    (k : String) (h : ("stop_sequences" == k) = false) :
    dmem (add_stop_sequences c d) k = dmem d k := by
  rcases hc : c.stop_sequences with _ | l
  · simp [add_stop_sequences, hc]
  · by_cases hl : l = [] <;>
      simp [add_stop_sequences, hc, hl, dmem_append, dmem_single, h]

theorem dmem_add_web_search_self (c : Config) (d : List (String × KwVal)) :
    (dmem (add_web_search c d) "tools" = true ↔
      (dmem d "tools" = true ∨ c.web_search = some true)) := by
  rcases hc : c.web_search with _ | b
  · simp [add_web_search, hc]
  · cases b <;> simp [add_web_search, hc, dmem_append, dmem_single]

theorem dmem_add_web_search_ne (c : Config) (d : List (String × KwVal))
    (k : String) (h : ("tools" == k) = false) :
    dmem (add_web_search c d) k = dmem d k := by
  rcases hc : c.web_search with _ | b
  · simp [add_web_search, hc]
  · cases b <;> simp_all [add_web_search, dmem_append, dmem_single]

theorem mem_add_temperature {x : String × KwVal} (c : Config)
    {d : List (String × KwVal)} (hx : x ∈ d) : x ∈ add_temperature c d := by
  rcases hc : c.temperature with _ | t <;> simp [add_temperature, hc, hx]

theorem mem_add_top_p {x : String × KwVal} (c : Config)
    {d : List (String × KwVal)} (hx : x ∈ d) : x ∈ add_top_p c d := by
  rcases hc : c.top_p with _ | t <;> simp [add_top_p, hc, hx]

theorem mem_add_top_k {x : String × KwVal} (c : Config)
    {d : List (String × KwVal)} (hx : x ∈ d) : x ∈ add_top_k c d := by
  rcases hc : c.top_k with _ | t <;> simp [add_top_k, hc, hx]

theorem mem_add_system {x : String × KwVal} (c : Config)
    {d : List (String × KwVal)} (hx : x ∈ d) : x ∈ add_system c d := by
  rcases hc : c.system with _ | s
  · simpa [add_system, hc] using hx
  · by_cases hs : s = "" <;> simp [add_system, hc, hs, hx]

theorem mem_add_stop_sequences {x : String × KwVal} (c : Config)
    {d : List (String × KwVal)} (hx : x ∈ d) :
    x ∈ add_stop_sequences c d := by
  rcases hc : c.stop_sequences with _ | l
  · simpa [add_stop_sequences, hc] using hx
  · by_cases hl : l = [] <;> simp [add_stop_sequences, hc, hl, hx]

theorem mem_add_web_search {x : String × KwVal} (c : Config)
    {d : List (String × KwVal)} (hx : x ∈ d) : x ∈ add_web_search c d := by
  rcases hc : c.web_search with _ | b
  · simpa [add_web_search, hc] using hx
  · cases b <;> simp_all [add_web_search]

/-- C8: the request always carries the model id, the max-output-token limit
and the prompt as sole user message; `temperature`/`top_p`/`top_k` are keyed
in the request exactly when present in the configuration; `system`,
`stop_sequences` and the web-search tool are keyed exactly when present and
non-empty (Python truthiness); an absent optional field contributes no key at
all. -/
theorem c8_optional_fields_presence (config : Config)
    (model_id prompt : String) :
    (("model", KwVal.str model_id) ∈ call_model_kwargs config model_id prompt)
    ∧ (("max_tokens", KwVal.nat config.max_tokens)
        ∈ call_model_kwargs config model_id prompt)
    ∧ (("messages", KwVal.messages [("user", prompt)])
        ∈ call_model_kwargs config model_id prompt)
    ∧ (dmem (call_model_kwargs config model_id prompt) "temperature"
        = config.temperature.isSome)
    ∧ (dmem (call_model_kwargs config model_id prompt) "top_p"
        = config.top_p.isSome)
    ∧ (dmem (call_model_kwargs config model_id prompt) "top_k"
        = config.top_k.isSome)
    ∧ (dmem (call_model_kwargs config model_id prompt) "system" = true ↔
        ∃ s, config.system = some s ∧ s ≠ "")
    ∧ (dmem (call_model_kwargs config model_id prompt) "stop_sequences"
          = true ↔
        ∃ l, config.stop_sequences = some l ∧ l ≠ [])
    ∧ (dmem (call_model_kwargs config model_id prompt) "tools" = true ↔
        config.web_search = some true) := by
  refine ⟨?_, ?_, ?_, ?_, ?_, ?_, ?_, ?_, ?_⟩
  · exact mem_add_web_search config (mem_add_stop_sequences config
      (mem_add_system config (mem_add_top_k config (mem_add_top_p config
        (mem_add_temperature config (by simp [base_kwargs]))))))
  · exact mem_add_web_search config (mem_add_stop_sequences config
      (mem_add_system config (mem_add_top_k config (mem_add_top_p config
        (mem_add_temperature config (by simp [base_kwargs]))))))
  · exact mem_add_web_search config (mem_add_stop_sequences config
      (mem_add_system config (mem_add_top_k config (mem_add_top_p config
        (mem_add_temperature config (by simp [base_kwargs]))))))
  · show dmem (add_web_search config _) "temperature" = _
    rw [dmem_add_web_search_ne _ _ _ (by decide),
      dmem_add_stop_sequences_ne _ _ _ (by decide),
      dmem_add_system_ne _ _ _ (by decide),
      dmem_add_top_k_ne _ _ _ (by decide),
      dmem_add_top_p_ne _ _ _ (by decide),
      dmem_add_temperature_self]
    have hb : dmem (base_kwargs config model_id prompt) "temperature"
        = false := rfl
    rw [hb]
    simp
  · show dmem (add_web_search config _) "top_p" = _
    rw [dmem_add_web_search_ne _ _ _ (by decide),
      dmem_add_stop_sequences_ne _ _ _ (by decide),
      dmem_add_system_ne _ _ _ (by decide),
      dmem_add_top_k_ne _ _ _ (by decide),
      dmem_add_top_p_self,
      dmem_add_temperature_ne _ _ _ (by decide)]
    have hb : dmem (base_kwargs config model_id prompt) "top_p" = false := rfl
    rw [hb]
    simp
  · show dmem (add_web_search config _) "top_k" = _
    rw [dmem_add_web_search_ne _ _ _ (by decide),
      dmem_add_stop_sequences_ne _ _ _ (by decide),
      dmem_add_system_ne _ _ _ (by decide),
      dmem_add_top_k_self,
      dmem_add_top_p_ne _ _ _ (by decide),
      dmem_add_temperature_ne _ _ _ (by decide)]
    have hb : dmem (base_kwargs config model_id prompt) "top_k" = false := rfl
    rw [hb]
    simp
  · show dmem (add_web_search config _) "system" = true ↔ _
    rw [dmem_add_web_search_ne _ _ _ (by decide),
      dmem_add_stop_sequences_ne _ _ _ (by decide),
      dmem_add_system_self]
    have hX : dmem (add_top_k config (add_top_p config (add_temperature config
        (base_kwargs config model_id prompt)))) "system" = false := by
      rw [dmem_add_top_k_ne _ _ _ (by decide),
        dmem_add_top_p_ne _ _ _ (by decide),
        dmem_add_temperature_ne _ _ _ (by decide)]
      rfl
    rw [hX]
    simp
  · show dmem (add_web_search config _) "stop_sequences" = true ↔ _
    rw [dmem_add_web_search_ne _ _ _ (by decide),
      dmem_add_stop_sequences_self]
    have hX : dmem (add_system config (add_top_k config (add_top_p config
        (add_temperature config (base_kwargs config model_id prompt)))))
        "stop_sequences" = false := by
      rw [dmem_add_system_ne _ _ _ (by decide),
        dmem_add_top_k_ne _ _ _ (by decide),
        dmem_add_top_p_ne _ _ _ (by decide),
        dmem_add_temperature_ne _ _ _ (by decide)]
      rfl
    rw [hX]
    simp
  · show dmem (add_web_search config _) "tools" = true ↔ _
    rw [dmem_add_web_search_self]
    have hX : dmem (add_stop_sequences config (add_system config (add_top_k
        config (add_top_p config (add_temperature config
          (base_kwargs config model_id prompt)))))) "tools" = false := by
      rw [dmem_add_stop_sequences_ne _ _ _ (by decide),
        dmem_add_system_ne _ _ _ (by decide),
        dmem_add_top_k_ne _ _ _ (by decide),
        dmem_add_top_p_ne _ _ _ (by decide),
        dmem_add_temperature_ne _ _ _ (by decide)]
      rfl
    rw [hX]
    simp

/-- C9 counterexample: two distinct wall-clock instants within the same
second (differing microseconds) produce identical record and report paths,
so distinct rounds can collide. -/
theorem c9_counterexample :
    (⟨2026, 1, 2, 3, 4, 5, 0⟩ : Timestamp) ≠ ⟨2026, 1, 2, 3, 4, 5, 500000⟩
    ∧ json_path ⟨2026, 1, 2, 3, 4, 5, 0⟩
        = json_path ⟨2026, 1, 2, 3, 4, 5, 500000⟩
    ∧ html_path ⟨2026, 1, 2, 3, 4, 5, 0⟩
        = html_path ⟨2026, 1, 2, 3, 4, 5, 500000⟩ := by decide

theorem digitChar_inj (a b : Nat) (ha : a < 10) (hb : b < 10)
    (h : digitChar a = digitChar b) : a = b := by
  interval_cases a <;> interval_cases b <;>
    first
    | rfl
    | exact absurd h (by decide)

theorem strftime_slug_data (t : Timestamp) :
    (strftime_slug t).data
      = pad4 t.year ++ pad2 t.month ++ pad2 t.day ++ ['_'] ++ pad2 t.hour ++
        pad2 t.minute ++ pad2 t.second := rfl

theorem strftime_slug_inj (t1 t2 : Timestamp)
    (hy1 : t1.year < 10000) (hmo1 : t1.month < 100) (hd1 : t1.day < 100)
    (hh1 : t1.hour < 100) (hmi1 : t1.minute < 100) (hs1 : t1.second < 100)
    (hy2 : t2.year < 10000) (hmo2 : t2.month < 100) (hd2 : t2.day < 100)
    (hh2 : t2.hour < 100) (hmi2 : t2.minute < 100) (hs2 : t2.second < 100)
    (h : strftime_slug t1 = strftime_slug t2) :
    t1.year = t2.year ∧ t1.month = t2.month ∧ t1.day = t2.day ∧
      t1.hour = t2.hour ∧ t1.minute = t2.minute ∧
      t1.second = t2.second := by
  have hd := congrArg String.data h
  rw [strftime_slug_data, strftime_slug_data] at hd
  simp only [pad4, pad2, List.cons_append, List.nil_append, List.cons.injEq,
    eq_self_iff_true, and_true, true_and] at hd
  obtain ⟨e1, e2, e3, e4, e5, e6, e7, e8, e9, e10, e11, e12, e13, e14⟩ := hd
  have y1 := digitChar_inj _ _ (by omega) (by omega) e1
  have y2 := digitChar_inj _ _ (by omega) (by omega) e2
  have y3 := digitChar_inj _ _ (by omega) (by omega) e3
  have y4 := digitChar_inj _ _ (by omega) (by omega) e4
  have m1 := digitChar_inj _ _ (by omega) (by omega) e5
  have m2 := digitChar_inj _ _ (by omega) (by omega) e6
  have d1 := digitChar_inj _ _ (by omega) (by omega) e7
  have d2 := digitChar_inj _ _ (by omega) (by omega) e8
  have hh1' := digitChar_inj _ _ (by omega) (by omega) e9
  have hh2' := digitChar_inj _ _ (by omega) (by omega) e10
  have mi1 := digitChar_inj _ _ (by omega) (by omega) e11
  have mi2 := digitChar_inj _ _ (by omega) (by omega) e12
  have s1 := digitChar_inj _ _ (by omega) (by omega) e13
  have s2 := digitChar_inj _ _ (by omega) (by omega) e14
  refine ⟨by omega, by omega, by omega, by omega, by omega, by omega⟩

theorem strftime_slug_data_length (t : Timestamp) :
    (strftime_slug t).data.length = 15 := by
  simp [strftime_slug, pad4, pad2]

/-- C9 (amended): the record and report filenames share the sortable
timestamp-derived slug, but its resolution is one second: rounds whose
capture instants agree to the second collide (see the counterexample), while
rounds whose second-resolution timestamps differ (within calendar field
bounds) always receive distinct record paths and distinct report paths, and
a record path never equals a report path. -/
theorem c9_second_resolution_uniqueness (t1 t2 : Timestamp)
    (hy1 : t1.year < 10000) (hmo1 : t1.month < 100) (hd1 : t1.day < 100)
    (hh1 : t1.hour < 100) (hmi1 : t1.minute < 100) (hs1 : t1.second < 100)
    (hy2 : t2.year < 10000) (hmo2 : t2.month < 100) (hd2 : t2.day < 100)
    (hh2 : t2.hour < 100) (hmi2 : t2.minute < 100) (hs2 : t2.second < 100)
    (hne : (t1.year, t1.month, t1.day, t1.hour, t1.minute, t1.second)
        ≠ (t2.year, t2.month, t2.day, t2.hour, t2.minute, t2.second)) :
    json_path t1 ≠ json_path t2 ∧ html_path t1 ≠ html_path t2
    ∧ json_path t1 ≠ html_path t2 := by
  have hslug : strftime_slug t1 ≠ strftime_slug t2 := by
    intro h
    obtain ⟨a, b, c, d, e, f⟩ := strftime_slug_inj t1 t2 hy1 hmo1 hd1 hh1
      hmi1 hs1 hy2 hmo2 hd2 hh2 hmi2 hs2 h
    exact hne (by rw [a, b, c, d, e, f])
  refine ⟨?_, ?_, ?_⟩
  · intro h
    apply hslug
    have hd := congrArg String.data h
    simp only [json_path, html_path, String.data_append] at hd
    have hl : (strftime_slug t1).data.length
        = (strftime_slug t2).data.length := by
      rw [strftime_slug_data_length, strftime_slug_data_length]
    obtain ⟨hs, _⟩ := List.append_inj hd hl
    exact String.ext hs
  · intro h
    apply hslug
    have hd := congrArg String.data h
    simp only [json_path, html_path, String.data_append] at hd
    have hl : (strftime_slug t1).data.length
        = (strftime_slug t2).data.length := by
      rw [strftime_slug_data_length, strftime_slug_data_length]
    obtain ⟨hs, _⟩ := List.append_inj hd hl
    exact String.ext hs
  · intro h
    have hd := congrArg String.data h
    simp only [json_path, html_path, String.data_append] at hd
    have hl : (strftime_slug t1).data.length
        = (strftime_slug t2).data.length := by
      rw [strftime_slug_data_length, strftime_slug_data_length]
    obtain ⟨_, hsuf⟩ := List.append_inj hd hl
    exact absurd hsuf (by decide)

/-- Witness for C9 (amended): two instants one second apart get distinct
record and report paths. -/
theorem c9_witness :
    json_path ⟨2026, 1, 2, 3, 4, 5, 0⟩ ≠ json_path ⟨2026, 1, 2, 3, 4, 6, 0⟩
    ∧ html_path ⟨2026, 1, 2, 3, 4, 5, 0⟩ ≠ html_path ⟨2026, 1, 2, 3, 4, 6, 0⟩
    ∧ json_path ⟨2026, 1, 2, 3, 4, 5, 0⟩
        ≠ html_path ⟨2026, 1, 2, 3, 4, 6, 0⟩ :=
  c9_second_resolution_uniqueness ⟨2026, 1, 2, 3, 4, 5, 0⟩
    ⟨2026, 1, 2, 3, 4, 6, 0⟩ (by decide) (by decide) (by decide) (by decide)
    (by decide) (by decide) (by decide) (by decide) (by decide) (by decide)
    (by decide) (by decide) (by decide)

end Suite
